import Mathlib

/-!
Shallow embedding of scripts/gpx_to_geojson.py (trail-viewer).

The program converts parsed GPX track documents into GeoJSON Feature
documents.  Numeric coordinate values (longitude, latitude, elevation)
are modelled as rationals: the converter never performs arithmetic on
them, it only moves them around, so any numeric carrier is faithful.
File-system effects (reads, writes, directory listings, path tests) are
modelled by explicit parameters and by returning the list of written
files and printed lines.
-/

set_option autoImplicit false

namespace TrailViewer

/-- A GPX track point: longitude and latitude are required, elevation is
optional (absent means no elevation recorded, not zero). -/
structure Point where
  longitude : Rat
  latitude : Rat
  elevation : Option Rat
  deriving Repr, DecidableEq

/-- A GPX track segment: an ordered list of points. -/
structure Segment where
  points : List Point
  deriving Repr, DecidableEq

/-- A GPX track: optional name and description (Python strings that may be
None), and an ordered list of segments. -/
structure Track where
  name : Option String
  description : Option String
  segments : List Segment
  deriving Repr, DecidableEq

/-- A parsed GPX document: an ordered list of tracks (gpx.tracks). -/
structure GpxDoc where
  tracks : List Track
  deriving Repr, DecidableEq

/-- JSON values, as built and manipulated by the script.  Objects are
ordered key-value lists, matching Python dict insertion order. -/
inductive Json where
  | str : String → Json
  | num : Rat → Json
  | arr : List Json → Json
  | obj : List (String × Json) → Json
  deriving Repr

/-- Python truthiness of an optional string: None and the empty string are
falsy, any other string is truthy. -/
def pyTruthyStr (o : Option String) : Bool :=
  match o with
  | none => false
  | some s => if s = "" then false else true

/-- Python str.endswith, also the semantics of the glob patterns
`*.gpx` and `*.GPX` used by convert_directory (a name matches the pattern
exactly when it ends with the literal suffix). -/
def strEndsWith (s suffix : String) : Bool :=
  decide (s.data.reverse.take suffix.data.length = suffix.data.reverse)

/-- Index of the last occurrence of a character in a list, if any. -/
def rfindIdx (c : Char) (cs : List Char) : Option Nat :=
  match cs.reverse.findIdx? (fun x => x = c) with
  | none => none
  | some j => some (cs.length - 1 - j)

/-- pathlib Path.name for a plain path string: the component after the
last slash. -/
def pathBaseName (p : String) : String :=
  String.mk ((p.data.reverse.takeWhile (fun c => c ≠ '/')).reverse)

/-- pathlib Path.stem: the final component without its suffix.  The suffix
is the part from the last dot, provided that dot is neither the first nor
the last character of the name. -/
def pathStem (p : String) : String :=
  let name := pathBaseName p
  let cs := name.data
  match rfindIdx '.' cs with
  | none => name
  | some i => if 0 < i ∧ i < cs.length - 1 then String.mk (cs.take i) else name

/-- Lines 33-35 of the script: the coordinate built for one point,
`[longitude, latitude]` with the elevation appended only when present. -/
def pointCoord (point : Point) : List Rat :=
  let coord := [point.longitude, point.latitude]
  match point.elevation with
  | some e => coord ++ [e]
  | none => coord

/-- Lines 28-36 of the script: the nested loop accumulating the
coordinates of all tracks, segments and points into one flat list. -/
def gpxCoordinates (gpx : GpxDoc) : List (List Rat) :=
  gpx.tracks.foldl
    (fun acc track =>
      track.segments.foldl
        (fun acc2 segment =>
          segment.points.foldl
            (fun acc3 point => acc3 ++ [pointCoord point]) acc2)
        acc)
    []

/-- Specification-side flattening: all points of the document in document
order (tracks concatenated, then segments, then points). -/
def allPoints (gpx : GpxDoc) : List Point :=
  gpx.tracks.flatMap fun t => t.segments.flatMap fun s => s.points

/-- Total number of points across all tracks and segments. -/
def totalPoints (gpx : GpxDoc) : Nat :=
  (gpx.tracks.map fun t => (t.segments.map fun s => s.points.length).sum).sum

/-- A coordinate list rendered as a JSON array of numbers. -/
def coordJson (c : List Rat) : Json :=
  Json.arr (c.map Json.num)

/-- Lines 38-56 of the script: the pure part of convert_gpx_to_geojson
given the parsed document.  Raising ValueError is modelled as
Except.error with the exact message string. -/
def convertFeature (gpxPath : String) (gpx : GpxDoc) : Except String Json :=
  let coordinates := gpxCoordinates gpx
  if coordinates = [] then
    Except.error "No coordinates found in GPX file"
  else
    let name :=
      match gpx.tracks with
      | [] => pathStem gpxPath
      | t :: _ => if pyTruthyStr t.name then t.name.getD "" else pathStem gpxPath
    let description :=
      match gpx.tracks with
      | [] => ""
      | t :: _ => if pyTruthyStr t.description then t.description.getD "" else ""
    Except.ok (Json.obj
      [("type", Json.str "Feature"),
       ("properties", Json.obj
         [("name", Json.str name),
          ("description", Json.str description)]),
       ("geometry", Json.obj
         [("type", Json.str "LineString"),
          ("coordinates", Json.arr ((gpxCoordinates gpx).map coordJson))])])

/-- convert_gpx_to_geojson (lines 21-67): takes the result of parsing the
input file (Except.error models an I/O or gpxpy parse failure), returns
the Python return value, the file written (path and content, none when
the conversion failed before the write), and the printed lines. -/
def convert_gpx_to_geojson (gpxPath geojsonPath : String)
    (parseResult : Except String GpxDoc) :
    Bool × Option (String × Json) × List String :=
  match parseResult with
  | Except.error e =>
      (false, none, ["✗ Error converting " ++ gpxPath ++ ": " ++ e])
  | Except.ok gpx =>
      match convertFeature gpxPath gpx with
      | Except.error e =>
          (false, none, ["✗ Error converting " ++ gpxPath ++ ": " ++ e])
      | Except.ok geojson =>
          (true, some (geojsonPath, geojson),
           ["✓ Converted: " ++ gpxPath ++ " → " ++ geojsonPath])

/-- Python dict lookup on an ordered key-value list: value of the first
(and in our documents only) pair with the given key. -/
def lookupKey (l : List (String × Json)) (k : String) : Option Json :=
  match l with
  | [] => none
  | (k0, v0) :: rest => if k0 = k then some v0 else lookupKey rest k

/-- Python dict assignment `d[k] = v` on an ordered key-value list:
overwrite in place when the key exists, append otherwise. -/
def setKey (l : List (String × Json)) (k : String) (v : Json) :
    List (String × Json) :=
  match l with
  | [] => [(k, v)]
  | (k0, v0) :: rest =>
      if k0 = k then (k0, v) :: rest else (k0, v0) :: setKey rest k v

/-- Field access on a JSON value: some value when it is an object with the
key, none otherwise. -/
def jsonGet (j : Json) (k : String) : Option Json :=
  match j with
  | Json.obj pairs => lookupKey pairs k
  | _ => none

/-- Two-level field access, e.g. geometry.coordinates. -/
def jsonGet2 (j : Json) (k1 k2 : String) : Option Json :=
  match jsonGet j k1 with
  | some v => jsonGet v k2
  | none => none

/-- Whether the top level of a JSON value is an object carrying a
"properties" key whose value is itself an object (a mapping). -/
def hasPropertiesObj (j : Json) : Bool :=
  match j with
  | Json.obj pairs =>
      match lookupKey pairs "properties" with
      | some (Json.obj _) => true
      | _ => false
  | _ => false

/-- Line 99 of the script: the assignment storing location under the
properties key of the loaded document.  A KeyError (top-level object
without the key) or TypeError (top level or properties value not a dict)
is modelled as Except.error carrying str(e); for a KeyError Python
renders the missing key in quotes, for the TypeErrors the message text
depends on the concrete type. -/
def pySetProperties (geojson : Json) (location : String) : Except String Json :=
  match geojson with
  | Json.obj pairs =>
      match lookupKey pairs "properties" with
      | some (Json.obj props) =>
          Except.ok (Json.obj (setKey pairs "properties"
            (Json.obj (setKey props "location" (Json.str location)))))
      | some _ =>
          Except.error "object does not support item assignment"
      | none => Except.error "\x27properties\x27"
  | _ => Except.error "indices must be integers"

/-- add_location_to_geojson (lines 93-107): takes the result of loading
and JSON-decoding the file (Except.error models an I/O or JSON decode
failure), returns the file written in place (none when the update failed
before the reopen for writing) and the printed lines. -/
def add_location_to_geojson (geojsonPath : String)
    (loadResult : Except String Json) (location : String) :
    Option (String × Json) × List String :=
  match loadResult with
  | Except.error e =>
      (none, ["✗ Error updating " ++ geojsonPath ++ ": " ++ e])
  | Except.ok geojson =>
      match pySetProperties geojson location with
      | Except.error e =>
          (none, ["✗ Error updating " ++ geojsonPath ++ ": " ++ e])
      | Except.ok patched =>
          (some (geojsonPath, patched),
           ["✓ Added location \x27" ++ location ++ "\x27 to " ++ geojsonPath])

/-- Line 76 of the script: the files of the directory listing matched by
glob(*.gpx) followed by those matched by glob(*.GPX). -/
def gpxFiles (listing : List String) : List String :=
  listing.filter (fun n => strEndsWith n ".gpx") ++
    listing.filter (fun n => strEndsWith n ".GPX")

/-- Observable outcome of convert_directory: the per-file records
(input path, output path, success flag), the files actually written,
the success counter and the printed lines. -/
structure BatchResult where
  results : List (String × String × Bool)
  outputs : List (String × Json)
  successCount : Nat
  logs : List String
  deriving Repr

/-- One iteration of the loop at lines 85-88. -/
def batchStep (inputDir outputDir : String)
    (parse : String → Except String GpxDoc)
    (acc : BatchResult) (name : String) : BatchResult :=
  let gpxPath := inputDir ++ "/" ++ name
  let geojsonPath := outputDir ++ "/" ++ pathStem gpxPath ++ ".geojson"
  let r := convert_gpx_to_geojson gpxPath geojsonPath (parse gpxPath)
  { results := acc.results ++ [(gpxPath, geojsonPath, r.1)]
    outputs := acc.outputs ++ r.2.1.toList
    successCount := acc.successCount + (if r.1 then 1 else 0)
    logs := acc.logs ++ r.2.2 }

/-- convert_directory (lines 70-90): listing is the directory content,
parse the per-file parsing oracle keyed by full path. -/
def convert_directory (inputDir outputDir : String) (listing : List String)
    (parse : String → Except String GpxDoc) : BatchResult :=
  let files := gpxFiles listing
  if files = [] then
    { results := [], outputs := [], successCount := 0,
      logs := ["No GPX files found in " ++ inputDir] }
  else
    let r := files.foldl (batchStep inputDir outputDir parse)
      { results := [], outputs := [], successCount := 0,
        logs := ["Found " ++ toString files.length ++ " GPX files to convert...\n"] }
    { r with logs := r.logs ++
        ["\nConverted " ++ toString r.successCount ++ "/" ++
          toString files.length ++ " files successfully!"] }

/-- The environment main runs against: path tests, the parsing oracle for
GPX inputs, the JSON loading oracle for add-location, and directory
listings. -/
structure FsModel where
  isDir : String → Bool
  isFile : String → Bool
  parse : String → Except String GpxDoc
  loadJson : String → Except String Json
  listing : String → List String

/-- Observable outcome of main: the process exit status, the printed
lines, and the files written. -/
structure MainResult where
  exitCode : Nat
  logs : List String
  writes : List (String × Json)
  deriving Repr

/-- The usage/help text printed when fewer than two arguments are given
(lines 113-131), condensed to its first line. -/
def usageText : String :=
  "\nGPX to GeoJSON Converter\n\nUsage:\n  python gpx_to_geojson.py <input> <output>\n"

/-- main (lines 110-149): argv includes the program name at index 0. -/
def mainRun (argv : List String) (fs : FsModel) : MainResult :=
  if argv.length < 3 then
    { exitCode := 1, logs := [usageText], writes := [] }
  else if argv.getD 1 "" = "--add-location" ∧ 4 ≤ argv.length then
    let r := add_location_to_geojson (argv.getD 2 "")
      (fs.loadJson (argv.getD 2 "")) (argv.getD 3 "")
    { exitCode := 0, logs := r.2, writes := r.1.toList }
  else
    let inputPath := argv.getD 1 ""
    let outputPath := argv.getD 2 ""
    if fs.isDir inputPath then
      let r := convert_directory inputPath outputPath (fs.listing inputPath) fs.parse
      { exitCode := 0, logs := r.logs, writes := r.outputs }
    else if fs.isFile inputPath then
      let r := convert_gpx_to_geojson inputPath outputPath (fs.parse inputPath)
      { exitCode := 0, logs := r.2.2, writes := r.2.1.toList }
    else
      { exitCode := 1,
        logs := ["Error: \x27" ++ inputPath ++ "\x27 is not a valid file or directory"],
        writes := [] }

/-- Lowercase folding of an ASCII character, used to express
case-insensitive extension matching. -/
def charLower (c : Char) : Char :=
  if 65 ≤ c.toNat ∧ c.toNat ≤ 90 then Char.ofNat (c.toNat + 32) else c

/-- Case-insensitive version of strEndsWith: whether the name ends with
the suffix under any mix of letter case. -/
def endsWithIgnoreCase (s suffix : String) : Bool :=
  decide ((s.data.map charLower).reverse.take suffix.data.length
    = (suffix.data.map charLower).reverse)

/-! Concrete documents used to instantiate the theorems below. -/

/-- The first example point of spec section 8. -/
def samplePoint1 : Point :=
  { longitude := -122, latitude := 37, elevation := some 10 }

/-- The second example point of spec section 8 (no elevation). -/
def samplePoint2 : Point :=
  { longitude := -123, latitude := 38, elevation := none }

/-- A one-track, one-segment, two-point document. -/
def sampleDoc : GpxDoc :=
  { tracks := [{ name := some "Morning Run", description := none,
                 segments := [{ points := [samplePoint1, samplePoint2] }] }] }

/-- The Feature sampleDoc converts to. -/
def sampleFeature : Json :=
  Json.obj
    [("type", Json.str "Feature"),
     ("properties", Json.obj
       [("name", Json.str "Morning Run"),
        ("description", Json.str "")]),
     ("geometry", Json.obj
       [("type", Json.str "LineString"),
        ("coordinates", Json.arr
          [Json.arr [Json.num (-122), Json.num 37, Json.num 10],
           Json.arr [Json.num (-123), Json.num 38]])])]

/-- A document with no tracks (hence no points). -/
def emptyDoc : GpxDoc := { tracks := [] }

/-- A one-point document used for batch examples. -/
def tinyDoc : GpxDoc :=
  { tracks := [{ name := none, description := none,
                 segments := [{ points := [{ longitude := 1, latitude := 2,
                                              elevation := none }] }] }] }

/-- An environment where in.gpx exists as a file and parsing it fails. -/
def failFs : FsModel :=
  { isDir := fun _ => false
    isFile := fun p => p = "in.gpx"
    parse := fun _ => Except.error "parse failed"
    loadJson := fun _ => Except.error "load failed"
    listing := fun _ => [] }

/-- What one iteration of the convert_directory loop computes for a file
name: the call to convert_gpx_to_geojson at the full input path, with the
output path built from the stem. -/
def fileConv (inputDir outputDir : String)
    (parse : String → Except String GpxDoc) (name : String) :
    Bool × Option (String × Json) × List String :=
  convert_gpx_to_geojson (inputDir ++ "/" ++ name)
    (outputDir ++ "/" ++ pathStem (inputDir ++ "/" ++ name) ++ ".geojson")
    (parse (inputDir ++ "/" ++ name))

/-- A parsing oracle for batch examples: bad.gpx fails to parse, every
other file parses to the one-point document. -/
def batchParse : String → Except String GpxDoc :=
  fun p => if p = "in/bad.gpx" then Except.error "parse failed" else Except.ok tinyDoc

/-! Helper lemmas connecting the accumulating loops of the script to
flatMap form. -/

theorem foldl_snoc_map {α β : Type} (f : α → β) (l : List α) :
    ∀ init : List β,
      l.foldl (fun acc x => acc ++ [f x]) init = init ++ l.map f := by
  induction l with
  | nil => intro init; simp
  | cons a t ih => intro init; simp [ih]

theorem foldl_append_flat {α β : Type} (g : α → List β) (l : List α) :
    ∀ init : List β,
      l.foldl (fun acc x => acc ++ g x) init = init ++ l.flatMap g := by
  induction l with
  | nil => intro init; simp
  | cons a t ih => intro init; simp [ih]

theorem segments_foldl_eq (segs : List Segment) (init : List (List Rat)) :
    segs.foldl
      (fun acc2 segment =>
        segment.points.foldl (fun acc3 point => acc3 ++ [pointCoord point]) acc2)
      init
    = init ++ segs.flatMap fun s => s.points.map pointCoord := by
  simp [foldl_snoc_map, foldl_append_flat]

theorem tracks_foldl_eq (tracks : List Track) (init : List (List Rat)) :
    tracks.foldl
      (fun acc track =>
        track.segments.foldl
          (fun acc2 segment =>
            segment.points.foldl (fun acc3 point => acc3 ++ [pointCoord point]) acc2)
          acc)
      init
    = init ++ tracks.flatMap fun t => t.segments.flatMap fun s => s.points.map pointCoord := by
  simp [foldl_snoc_map, foldl_append_flat]

/-- The loop of lines 29-36 produces exactly the per-point coordinates of
all points in document order. -/
theorem gpxCoordinates_eq_map (gpx : GpxDoc) :
    gpxCoordinates gpx = (allPoints gpx).map pointCoord := by
  unfold gpxCoordinates allPoints
  rw [tracks_foldl_eq, List.nil_append, List.map_flatMap]
  congr 1
  funext t
  rw [List.map_flatMap]

/-- The document-order flattening has exactly totalPoints elements. -/
theorem length_allPoints (gpx : GpxDoc) :
    (allPoints gpx).length = totalPoints gpx := by
  unfold allPoints totalPoints
  simp [List.length_flatMap, Function.comp_def]

/-- When conversion succeeds, the resulting Feature has exactly the shape
assembled at lines 46-56, with name and description as computed at lines
42-43. -/
theorem convertFeature_ok_shape (gpxPath : String) (gpx : GpxDoc) (j : Json)
    (h : convertFeature gpxPath gpx = Except.ok j) :
    j = Json.obj
      [("type", Json.str "Feature"),
       ("properties", Json.obj
         [("name", Json.str
            (match gpx.tracks with
             | [] => pathStem gpxPath
             | t :: _ => if pyTruthyStr t.name then t.name.getD "" else pathStem gpxPath)),
          ("description", Json.str
            (match gpx.tracks with
             | [] => ""
             | t :: _ => if pyTruthyStr t.description then t.description.getD "" else ""))]),
       ("geometry", Json.obj
         [("type", Json.str "LineString"),
          ("coordinates", Json.arr ((gpxCoordinates gpx).map coordJson))])] := by
  unfold convertFeature at h
  by_cases hc : gpxCoordinates gpx = []
  · rw [if_pos hc] at h
    simp at h
  · rw [if_neg hc] at h
    injection h with hj
    exact hj.symm

/-- convert_gpx_to_geojson writes exactly one file when it returns true,
and on failure writes nothing and prints one error line naming the input
path. -/
theorem convert_write_iff (gpxPath geojsonPath : String)
    (parseResult : Except String GpxDoc) :
    ((convert_gpx_to_geojson gpxPath geojsonPath parseResult).2.1.toList.length
      = if (convert_gpx_to_geojson gpxPath geojsonPath parseResult).1 then 1 else 0) ∧
    ((convert_gpx_to_geojson gpxPath geojsonPath parseResult).1 = false →
      (convert_gpx_to_geojson gpxPath geojsonPath parseResult).2.1 = none ∧
      ∃ msg, (convert_gpx_to_geojson gpxPath geojsonPath parseResult).2.2
        = ["✗ Error converting " ++ gpxPath ++ ": " ++ msg]) := by
  unfold convert_gpx_to_geojson
  cases parseResult with
  | error e => simp
  | ok gpx => cases hcf : convertFeature gpxPath gpx <;> simp [hcf]

/-- C1: for every track document with at least one point, conversion
succeeds and the Feature geometry is of type LineString, whose
coordinates form one flat array holding one coordinate per point of the
document, in document order (tracks concatenated, segment boundaries
dropped), with length the total point count across all tracks and
segments. -/
theorem convert_flat_linestring (gpxPath : String) (gpx : GpxDoc)
    (h : 1 ≤ totalPoints gpx) :
    ∃ j, convertFeature gpxPath gpx = Except.ok j ∧
      jsonGet2 j "geometry" "type" = some (Json.str "LineString") ∧
      jsonGet2 j "geometry" "coordinates"
        = some (Json.arr (((allPoints gpx).map pointCoord).map coordJson)) ∧
      ((allPoints gpx).map pointCoord).length = totalPoints gpx := by
  have hlen : (allPoints gpx).length = totalPoints gpx := length_allPoints gpx
  have hne : ¬ gpxCoordinates gpx = [] := by
    intro hc
    rw [gpxCoordinates_eq_map] at hc
    have h0 : (allPoints gpx).length = 0 := by simp [List.map_eq_nil_iff] at hc; simp [hc]
    omega
  unfold convertFeature
  rw [if_neg hne]
  refine ⟨_, rfl, ?_, ?_, ?_⟩
  · simp [jsonGet2, jsonGet, lookupKey]
  · simp [jsonGet2, jsonGet, lookupKey, gpxCoordinates_eq_map]
  · simp [hlen]

/-- C1 witness: the two-point sample document. -/
theorem convert_flat_linestring_witness :
    1 ≤ totalPoints sampleDoc ∧
    (∃ j, convertFeature "run.gpx" sampleDoc = Except.ok j ∧
      jsonGet2 j "geometry" "type" = some (Json.str "LineString") ∧
      jsonGet2 j "geometry" "coordinates"
        = some (Json.arr (((allPoints sampleDoc).map pointCoord).map coordJson)) ∧
      ((allPoints sampleDoc).map pointCoord).length = totalPoints sampleDoc) :=
  ⟨by decide, convert_flat_linestring "run.gpx" sampleDoc (by decide)⟩

/-- C2: the converter builds the coordinates list by applying pointCoord
to every point in document order, and for each single point the
coordinate is longitude-latitude-elevation (length 3, last entry the
elevation) when the elevation is present and longitude-latitude (length
exactly 2) when it is absent; the choice depends only on that point. -/
theorem coord_per_point_shape (gpx : GpxDoc) (p : Point) :
    gpxCoordinates gpx = (allPoints gpx).map pointCoord ∧
    (∀ e, p.elevation = some e →
      pointCoord p = [p.longitude, p.latitude, e] ∧
      (pointCoord p).length = 3 ∧ (pointCoord p)[2]? = some e) ∧
    (p.elevation = none →
      pointCoord p = [p.longitude, p.latitude] ∧ (pointCoord p).length = 2) := by
  refine ⟨gpxCoordinates_eq_map gpx, ?_, ?_⟩
  · intro e he
    simp [pointCoord, he]
  · intro he
    simp [pointCoord, he]

/-- C2 witness: one point with elevation, one without. -/
theorem coord_per_point_shape_witness :
    samplePoint1.elevation = some 10 ∧
    pointCoord samplePoint1 = [samplePoint1.longitude, samplePoint1.latitude, 10] ∧
    samplePoint2.elevation = none ∧
    pointCoord samplePoint2 = [samplePoint2.longitude, samplePoint2.latitude] :=
  ⟨by decide,
   ((coord_per_point_shape sampleDoc samplePoint1).2.1 10 (by decide)).1,
   by decide,
   ((coord_per_point_shape sampleDoc samplePoint2).2.2 (by decide)).1⟩

/-- C3 counterexample: on a document with zero points the conversion
fails, but the error message carried is the full sentence used at line 39
of the script, which is not the string claimed. -/
theorem empty_doc_message_counterexample :
    convertFeature "in.gpx" emptyDoc
      = Except.error "No coordinates found in GPX file" ∧
    "No coordinates found in GPX file" ≠ "no coordinates found" := by
  constructor
  · rfl
  · decide

/-- C3 amended: for every document whose total point count is zero,
conversion fails with the error message
"No coordinates found in GPX file", no output file is written (the error
is raised before the write to the output path), and the failure line
printed names the input path. -/
theorem empty_doc_conversion_error (gpxPath geojsonPath : String) (gpx : GpxDoc)
    (h : totalPoints gpx = 0) :
    convert_gpx_to_geojson gpxPath geojsonPath (Except.ok gpx)
      = (false, none,
         ["✗ Error converting " ++ gpxPath ++ ": "
           ++ "No coordinates found in GPX file"]) := by
  have hp : allPoints gpx = [] := by
    have hl := length_allPoints gpx
    rw [h] at hl
    exact List.length_eq_zero.mp hl
  have hnil : gpxCoordinates gpx = [] := by
    rw [gpxCoordinates_eq_map, hp]
    rfl
  unfold convert_gpx_to_geojson convertFeature
  simp [hnil]

/-- C3 witness: the zero-track document. -/
theorem empty_doc_conversion_error_witness :
    totalPoints emptyDoc = 0 ∧
    convert_gpx_to_geojson "in.gpx" "out.geojson" (Except.ok emptyDoc)
      = (false, none,
         ["✗ Error converting " ++ "in.gpx" ++ ": "
           ++ "No coordinates found in GPX file"]) :=
  ⟨by decide, empty_doc_conversion_error "in.gpx" "out.geojson" emptyDoc (by decide)⟩

/-- Existential form of the output shape: some name and description. -/
theorem convertFeature_ok_exists (gpxPath : String) (gpx : GpxDoc) (j : Json)
    (h : convertFeature gpxPath gpx = Except.ok j) :
    ∃ nm ds, j = Json.obj
      [("type", Json.str "Feature"),
       ("properties", Json.obj
         [("name", Json.str nm), ("description", Json.str ds)]),
       ("geometry", Json.obj
         [("type", Json.str "LineString"),
          ("coordinates", Json.arr ((gpxCoordinates gpx).map coordJson))])] :=
  ⟨_, _, convertFeature_ok_shape gpxPath gpx j h⟩

/-- C4: the output name is the first track name when present and
non-empty and otherwise the stem of the input path; the description is
the first track description when present and otherwise empty; with zero
tracks both fall back immediately. -/
theorem feature_name_description (gpxPath : String) (gpx : GpxDoc) (j : Json)
    (h : convertFeature gpxPath gpx = Except.ok j) :
    (gpx.tracks = [] →
      jsonGet2 j "properties" "name" = some (Json.str (pathStem gpxPath)) ∧
      jsonGet2 j "properties" "description" = some (Json.str "")) ∧
    (∀ t ts, gpx.tracks = t :: ts →
      ((∀ s, t.name = some s → s ≠ "" →
          jsonGet2 j "properties" "name" = some (Json.str s)) ∧
       ((t.name = none ∨ t.name = some "") →
          jsonGet2 j "properties" "name" = some (Json.str (pathStem gpxPath)))) ∧
      ((∀ s, t.description = some s →
          jsonGet2 j "properties" "description" = some (Json.str s)) ∧
       (t.description = none →
          jsonGet2 j "properties" "description" = some (Json.str "")))) := by
  have hj := convertFeature_ok_shape gpxPath gpx j h
  subst hj
  constructor
  · intro h0
    simp [h0, jsonGet2, jsonGet, lookupKey]
  · intro t ts hts
    refine ⟨⟨?_, ?_⟩, ?_, ?_⟩
    · intro s hs hne
      simp [hts, hs, hne, jsonGet2, jsonGet, lookupKey, pyTruthyStr]
    · intro hn
      cases hn with
      | inl hn => simp [hts, hn, jsonGet2, jsonGet, lookupKey, pyTruthyStr]
      | inr hn => simp [hts, hn, jsonGet2, jsonGet, lookupKey, pyTruthyStr]
    · intro s hs
      by_cases hse : s = ""
      · subst hse
        simp [hts, hs, jsonGet2, jsonGet, lookupKey, pyTruthyStr]
      · simp [hts, hs, hse, jsonGet2, jsonGet, lookupKey, pyTruthyStr]
    · intro hd
      simp [hts, hd, jsonGet2, jsonGet, lookupKey, pyTruthyStr]

/-- C4 witness: the sample document carries the non-empty name
Morning Run and no description. -/
theorem feature_name_description_witness :
    convertFeature "run.gpx" sampleDoc = Except.ok sampleFeature ∧
    jsonGet2 sampleFeature "properties" "name" = some (Json.str "Morning Run") ∧
    jsonGet2 sampleFeature "properties" "description" = some (Json.str "") := by
  have h : convertFeature "run.gpx" sampleDoc = Except.ok sampleFeature := by rfl
  have hc := feature_name_description "run.gpx" sampleDoc sampleFeature h
  have ht : sampleDoc.tracks
      = { name := some "Morning Run", description := none,
          segments := [{ points := [samplePoint1, samplePoint2] }] } :: [] := rfl
  exact ⟨h, ((hc.2 _ [] ht).1.1 "Morning Run" rfl (by decide)),
    ((hc.2 _ [] ht).2.2 rfl)⟩

/-- C5: patching a location into a converted Feature succeeds, writes the
file back in place, sets the location property, and leaves the geometry,
every other top-level key and every other properties key unchanged. -/
theorem patch_location_preserves_rest (gpxPath geojsonPath : String)
    (gpx : GpxDoc) (j : Json) (loc : String)
    (h : convertFeature gpxPath gpx = Except.ok j) :
    ∃ j2,
      add_location_to_geojson geojsonPath (Except.ok j) loc
        = (some (geojsonPath, j2),
           ["✓ Added location \x27" ++ loc ++ "\x27 to " ++ geojsonPath]) ∧
      jsonGet2 j2 "properties" "location" = some (Json.str loc) ∧
      jsonGet j2 "geometry" = jsonGet j "geometry" ∧
      (∀ k, k ≠ "location" →
        jsonGet2 j2 "properties" k = jsonGet2 j "properties" k) ∧
      (∀ k, k ≠ "properties" → jsonGet j2 k = jsonGet j k) := by
  obtain ⟨nm, ds, hj⟩ := convertFeature_ok_exists gpxPath gpx j h
  subst hj
  refine ⟨Json.obj
    [("type", Json.str "Feature"),
     ("properties", Json.obj
       [("name", Json.str nm), ("description", Json.str ds),
        ("location", Json.str loc)]),
     ("geometry", Json.obj
       [("type", Json.str "LineString"),
        ("coordinates", Json.arr ((gpxCoordinates gpx).map coordJson))])],
    ?_, ?_, ?_, ?_, ?_⟩
  · simp [add_location_to_geojson, pySetProperties, lookupKey, setKey]
  · simp [jsonGet2, jsonGet, lookupKey]
  · simp [jsonGet, lookupKey]
  · intro k hk
    simp [jsonGet2, jsonGet, lookupKey, Ne.symm hk]
  · intro k hk
    simp [jsonGet, lookupKey, Ne.symm hk]

/-- C5 witness: patching Yosemite into the converted sample Feature. -/
theorem patch_location_preserves_rest_witness :
    convertFeature "run.gpx" sampleDoc = Except.ok sampleFeature ∧
    ∃ j2,
      add_location_to_geojson "run.geojson" (Except.ok sampleFeature) "Yosemite, CA"
        = (some (("run.geojson" : String), j2),
           ["✓ Added location \x27" ++ "Yosemite, CA" ++ "\x27 to " ++ "run.geojson"]) ∧
      jsonGet2 j2 "properties" "location" = some (Json.str "Yosemite, CA") ∧
      jsonGet j2 "geometry" = jsonGet sampleFeature "geometry" ∧
      (∀ k, k ≠ "location" →
        jsonGet2 j2 "properties" k = jsonGet2 sampleFeature "properties" k) ∧
      (∀ k, k ≠ "properties" → jsonGet j2 k = jsonGet sampleFeature k) :=
  ⟨rfl, patch_location_preserves_rest "run.gpx" "run.geojson" sampleDoc
    sampleFeature "Yosemite, CA" rfl⟩

/-- The batch loop in closed form: results, outputs, counter and logs as
functions of the enumerated file names. -/
theorem foldl_batchStep (inputDir outputDir : String)
    (parse : String → Except String GpxDoc) (files : List String) :
    ∀ acc : BatchResult,
      files.foldl (batchStep inputDir outputDir parse) acc =
        { results := acc.results ++ files.map (fun n =>
            (inputDir ++ "/" ++ n,
             outputDir ++ "/" ++ pathStem (inputDir ++ "/" ++ n) ++ ".geojson",
             (fileConv inputDir outputDir parse n).1))
          outputs := acc.outputs ++ files.flatMap (fun n =>
            (fileConv inputDir outputDir parse n).2.1.toList)
          successCount := acc.successCount
            + (files.filter fun n => (fileConv inputDir outputDir parse n).1).length
          logs := acc.logs ++ files.flatMap (fun n =>
            (fileConv inputDir outputDir parse n).2.2) } := by
  induction files with
  | nil => intro acc; simp
  | cons n ns ih =>
    intro acc
    rw [List.foldl_cons, ih]
    simp only [batchStep, fileConv, List.map_cons, List.flatMap_cons,
      List.filter_cons, BatchResult.mk.injEq, List.append_assoc, List.cons_append,
      List.nil_append]
    refine ⟨trivial, trivial, ?_, trivial⟩
    by_cases hok : (convert_gpx_to_geojson (inputDir ++ "/" ++ n)
        (outputDir ++ "/" ++ pathStem (inputDir ++ "/" ++ n) ++ ".geojson")
        (parse (inputDir ++ "/" ++ n))).1
    · simp [hok]
      omega
    · simp [hok]

/-- The number of files a run of the batch loop writes equals the number
of successful conversions among the enumerated files. -/
theorem batch_outputs_length (inputDir outputDir : String)
    (parse : String → Except String GpxDoc) (files : List String) :
    (files.flatMap fun n => (fileConv inputDir outputDir parse n).2.1.toList).length
      = (files.filter fun n => (fileConv inputDir outputDir parse n).1).length := by
  induction files with
  | nil => simp
  | cons n ns ih =>
    rw [List.flatMap_cons, List.filter_cons, List.length_append]
    have h1 : (fileConv inputDir outputDir parse n).2.1.toList.length
        = if (fileConv inputDir outputDir parse n).1 then 1 else 0 :=
      (convert_write_iff (inputDir ++ "/" ++ n)
        (outputDir ++ "/" ++ pathStem (inputDir ++ "/" ++ n) ++ ".geojson")
        (parse (inputDir ++ "/" ++ n))).1
    rw [h1, ih]
    by_cases hok : (fileConv inputDir outputDir parse n).1
    · simp only [hok, if_true, List.length_cons]
      omega
    · simp only [hok]
      simp

/-- C6: with a non-empty enumeration, every enumerated file is processed
(one per-file record each, a failure never aborts the loop), the success
counter counts exactly the successful conversions, exactly that many
output files are written, and the final printed line is the summary
naming the success count and the total. -/
theorem batch_continues_and_counts (inputDir outputDir : String)
    (listing : List String) (parse : String → Except String GpxDoc)
    (h : gpxFiles listing ≠ []) :
    (convert_directory inputDir outputDir listing parse).results.length
      = (gpxFiles listing).length ∧
    (convert_directory inputDir outputDir listing parse).successCount
      = ((gpxFiles listing).filter fun n => (fileConv inputDir outputDir parse n).1).length ∧
    (convert_directory inputDir outputDir listing parse).outputs.length
      = (convert_directory inputDir outputDir listing parse).successCount ∧
    (convert_directory inputDir outputDir listing parse).logs.getLast?
      = some ("\nConverted "
          ++ toString (convert_directory inputDir outputDir listing parse).successCount
          ++ "/" ++ toString (gpxFiles listing).length ++ " files successfully!") := by
  unfold convert_directory
  rw [if_neg h]
  rw [foldl_batchStep]
  refine ⟨by simp, by simp, ?_, ?_⟩
  · simp only [List.nil_append, Nat.zero_add]
    exact batch_outputs_length inputDir outputDir parse (gpxFiles listing)
  · simp only [List.nil_append, Nat.zero_add]
    rw [List.getLast?_concat]

/-- C6 witness: three parsable files and one unparsable file. -/
theorem batch_continues_and_counts_witness :
    gpxFiles ["a.gpx", "b.gpx", "c.gpx", "bad.gpx"] ≠ [] ∧
    ((convert_directory "in" "out" ["a.gpx", "b.gpx", "c.gpx", "bad.gpx"] batchParse).successCount
      = ((gpxFiles ["a.gpx", "b.gpx", "c.gpx", "bad.gpx"]).filter
          fun n => (fileConv "in" "out" batchParse n).1).length) ∧
    ((convert_directory "in" "out" ["a.gpx", "b.gpx", "c.gpx", "bad.gpx"] batchParse).outputs.length
      = (convert_directory "in" "out" ["a.gpx", "b.gpx", "c.gpx", "bad.gpx"] batchParse).successCount) :=
  ⟨by decide,
   (batch_continues_and_counts "in" "out" ["a.gpx", "b.gpx", "c.gpx", "bad.gpx"]
     batchParse (by decide)).2.1,
   (batch_continues_and_counts "in" "out" ["a.gpx", "b.gpx", "c.gpx", "bad.gpx"]
     batchParse (by decide)).2.2.1⟩

/-- The concrete counts of the C6 example: three of four files convert,
three files are written, and the summary line says 3/4. -/
theorem batch_example_three_of_four :
    (convert_directory "in" "out" ["a.gpx", "b.gpx", "c.gpx", "bad.gpx"] batchParse).successCount = 3 ∧
    (convert_directory "in" "out" ["a.gpx", "b.gpx", "c.gpx", "bad.gpx"] batchParse).outputs.length = 3 ∧
    (convert_directory "in" "out" ["a.gpx", "b.gpx", "c.gpx", "bad.gpx"] batchParse).logs.getLast?
      = some "\nConverted 3/4 files successfully!" := by
  refine ⟨by decide, by decide, ?_⟩
  rfl

/-- C7 counterexample: a file name with a mixed-case extension ends in
the GPX extension case-insensitively, yet the enumeration of line 76
skips it: only the all-lowercase and all-uppercase globs are taken. -/
theorem mixed_case_not_enumerated :
    endsWithIgnoreCase "track.Gpx" ".gpx" = true ∧
    gpxFiles ["track.Gpx"] = [] := by
  decide

/-- C7 amended: the driver enumerates exactly the files of the input
directory whose names end in the all-lowercase extension or the
all-uppercase extension (mixed-case extensions are skipped), and
processes each enumerated file with the output path
output-directory slash input stem dot geojson. -/
theorem gpx_enumeration_and_output_paths (listing : List String) (f : String)
    (inputDir outputDir : String) (parse : String → Except String GpxDoc) :
    (f ∈ gpxFiles listing ↔
      f ∈ listing ∧ (strEndsWith f ".gpx" = true ∨ strEndsWith f ".GPX" = true)) ∧
    (convert_directory inputDir outputDir listing parse).results
      = (gpxFiles listing).map (fun n =>
          (inputDir ++ "/" ++ n,
           outputDir ++ "/" ++ pathStem (inputDir ++ "/" ++ n) ++ ".geojson",
           (fileConv inputDir outputDir parse n).1)) := by
  constructor
  · unfold gpxFiles
    simp only [List.mem_append, List.mem_filter]
    constructor
    · rintro (⟨hm, he⟩ | ⟨hm, he⟩)
      · exact ⟨hm, Or.inl he⟩
      · exact ⟨hm, Or.inr he⟩
    · rintro ⟨hm, he | he⟩
      · exact Or.inl ⟨hm, he⟩
      · exact Or.inr ⟨hm, he⟩
  · unfold convert_directory
    by_cases hfe : gpxFiles listing = []
    · rw [if_pos hfe, hfe]
      simp
    · rw [if_neg hfe, foldl_batchStep]
      simp

/-- C8: in single-file mode a failed conversion is caught at the
file-processing boundary: main returns normally with exit status 0,
writes nothing, and the only printed line is the error line naming the
failing input path. -/
theorem single_file_failure_exit_zero (argv : List String) (fs : FsModel)
    (h3 : 3 ≤ argv.length)
    (hadd : ¬(argv.getD 1 "" = "--add-location" ∧ 4 ≤ argv.length))
    (hdir : fs.isDir (argv.getD 1 "") = false)
    (hfile : fs.isFile (argv.getD 1 "") = true)
    (hfail : (convert_gpx_to_geojson (argv.getD 1 "") (argv.getD 2 "")
      (fs.parse (argv.getD 1 ""))).1 = false) :
    (mainRun argv fs).exitCode = 0 ∧
    (mainRun argv fs).writes = [] ∧
    ∃ msg, (mainRun argv fs).logs
      = ["✗ Error converting " ++ argv.getD 1 "" ++ ": " ++ msg] := by
  obtain ⟨hnone, msg, hlog⟩ := (convert_write_iff (argv.getD 1 "") (argv.getD 2 "")
    (fs.parse (argv.getD 1 ""))).2 hfail
  unfold mainRun
  simp only [List.getD, List.get?_eq_getElem?] at hadd hdir hfile hnone hlog ⊢
  rw [if_neg (by omega), if_neg hadd, if_neg (by simp [hdir]), if_pos (by simp [hfile])]
  exact ⟨rfl, by simp [hnone], msg, by simp [hlog]⟩

/-- C8 witness: the environment where in.gpx exists but fails to parse. -/
theorem single_file_failure_exit_zero_witness :
    3 ≤ (["prog", "in.gpx", "out.geojson"] : List String).length ∧
    ((mainRun ["prog", "in.gpx", "out.geojson"] failFs).exitCode = 0 ∧
     (mainRun ["prog", "in.gpx", "out.geojson"] failFs).writes = [] ∧
     ∃ msg, (mainRun ["prog", "in.gpx", "out.geojson"] failFs).logs
       = ["✗ Error converting "
           ++ (["prog", "in.gpx", "out.geojson"] : List String).getD 1 ""
           ++ ": " ++ msg]) :=
  ⟨by decide,
   single_file_failure_exit_zero ["prog", "in.gpx", "out.geojson"] failFs
     (by decide) (by decide) (by decide) (by decide) (by decide)⟩

/-- C9: called with exactly three argv entries as
prog --add-location file, the add-location branch is skipped (it needs
four entries), the literal option string is taken as the input path, and
when that string names neither a file nor a directory main prints the
invalid-path error and exits with status 1 without patching anything. -/
theorem missing_location_operand_invalid_path (prog f : String) (fs : FsModel)
    (hdir : fs.isDir "--add-location" = false)
    (hfile : fs.isFile "--add-location" = false) :
    mainRun [prog, "--add-location", f] fs
      = { exitCode := 1,
          logs := ["Error: \x27--add-location\x27 is not a valid file or directory"],
          writes := [] } := by
  unfold mainRun
  rw [if_neg (by simp), if_neg (by simp), if_neg (by simp [hdir]),
    if_neg (by simp [hfile])]
  rfl

/-- C9 witness: a concrete three-entry command line. -/
theorem missing_location_operand_invalid_path_witness :
    failFs.isDir "--add-location" = false ∧
    mainRun ["gpx_to_geojson.py", "--add-location", "track.geojson"] failFs
      = { exitCode := 1,
          logs := ["Error: \x27--add-location\x27 is not a valid file or directory"],
          writes := [] } :=
  ⟨by decide,
   missing_location_operand_invalid_path "gpx_to_geojson.py" "track.geojson" failFs
     (by decide) (by decide)⟩

/-- C10: when the loaded document is valid JSON but its top level is not
an object carrying a properties mapping, the patcher fails before the
file is reopened for writing: nothing is written (the content is left
unchanged) and the one printed line reports the error with the file
path. -/
theorem patch_without_properties_fails_unwritten (geojsonPath location : String)
    (j : Json) (h : hasPropertiesObj j = false) :
    (add_location_to_geojson geojsonPath (Except.ok j) location).1 = none ∧
    ∃ msg, (add_location_to_geojson geojsonPath (Except.ok j) location).2
      = ["✗ Error updating " ++ geojsonPath ++ ": " ++ msg] := by
  unfold hasPropertiesObj at h
  unfold add_location_to_geojson pySetProperties
  cases j with
  | str s => simp
  | num q => simp
  | arr l => simp
  | obj pairs =>
    cases hk : lookupKey pairs "properties" with
    | none => simp [hk]
    | some v =>
      cases v with
      | str s => simp [hk]
      | num q => simp [hk]
      | arr l => simp [hk]
      | obj props =>
        simp [hk] at h

/-- C10 witness: a top-level JSON array. -/
theorem patch_without_properties_fails_unwritten_witness :
    hasPropertiesObj (Json.arr []) = false ∧
    ((add_location_to_geojson "track.geojson" (Except.ok (Json.arr [])) "Yosemite, CA").1 = none ∧
     ∃ msg, (add_location_to_geojson "track.geojson" (Except.ok (Json.arr [])) "Yosemite, CA").2
       = ["✗ Error updating " ++ "track.geojson" ++ ": " ++ msg]) :=
  ⟨by decide,
   patch_without_properties_fails_unwritten "track.geojson" "Yosemite, CA"
     (Json.arr []) (by decide)⟩

end TrailViewer
